import Mathlib

/-
Verification of the Cobb-Douglas utility maximization notebook
(notebooks/demo-utility-budgetconstraint.ipynb).

The notebook defines four pure functions over Python floats:

  def utility(x1,alpha,x2,beta):  return (x1**alpha)*(x2**beta)
  def isoquant(x1,alpha,beta,u):  return (u/(x1**alpha))**(1/beta)
  def budgetconst(m,p1,p2,x1):    return (m/p2)-(p1/p2)*x1
  def find_optimal(p1,p2,alpha,beta,m=1):
      x2 = m/((alpha/beta)*(p2)+p2)
      x1 = (alpha/beta)*(p2/p1)*x2
      u = utility(x1,alpha,x2,beta)
      return x1,x2,u

We embed them over the real numbers, with `**` modelled by `Real.rpow`
(for non-negative bases, or for integral exponents, this agrees with the
ideal real value of the float computation).  Python's `/` raises
ZeroDivisionError on a zero divisor; for the claims about error behaviour
we additionally embed `find_optimal` with an explicit `Except` error
channel (`find_optimalE`), where each `/` of the source is a `pydiv`.
-/

noncomputable section

open Real

/-- Embedding of `utility(x1,alpha,x2,beta) = (x1**alpha)*(x2**beta)`. -/
def utility (x1 alpha x2 beta : ℝ) : ℝ :=
  x1 ^ alpha * x2 ^ beta

/-- Embedding of `isoquant(x1,alpha,beta,u) = (u/(x1**alpha))**(1/beta)`. -/
def isoquant (x1 alpha beta u : ℝ) : ℝ :=
  (u / x1 ^ alpha) ^ (1 / beta)

/-- Embedding of `budgetconst(m,p1,p2,x1) = (m/p2)-(p1/p2)*x1`. -/
def budgetconst (m p1 p2 x1 : ℝ) : ℝ :=
  m / p2 - (p1 / p2) * x1

/-- Embedding of `find_optimal(p1,p2,alpha,beta,m=1)`, including the default
value `1` of the parameter `m`.  The three assignments of the body are the
three `let`s; the result is the tuple `(x1, x2, u)`. -/
def find_optimal (p1 p2 alpha beta : ℝ) (m : ℝ := 1) : ℝ × ℝ × ℝ :=
  let x2 := m / ((alpha / beta) * p2 + p2)
  let x1 := (alpha / beta) * (p2 / p1) * x2
  let u := utility x1 alpha x2 beta
  (x1, x2, u)

/-- The one error Python's `/` can raise on floats. -/
inductive PyErr where
  | zeroDivision
  deriving DecidableEq

/-- Python float division: `a / b` raises ZeroDivisionError when `b = 0`. -/
def pydiv (a b : ℝ) : Except PyErr ℝ :=
  if b = 0 then .error .zeroDivision else .ok (a / b)

/-- Embedding of `find_optimal(p1,p2,alpha,beta,m)` with Python's division
semantics made explicit: every `/` of the source is a `pydiv`, evaluated in
the order Python evaluates them (`alpha/beta`, then the division for `x2`,
then `alpha/beta` and `p2/p1` again for `x1`). -/
def find_optimalE (p1 p2 alpha beta m : ℝ) : Except PyErr (ℝ × ℝ × ℝ) := do
  let r1 ← pydiv alpha beta
  let x2 ← pydiv m (r1 * p2 + p2)
  let r2 ← pydiv alpha beta
  let q ← pydiv p2 p1
  let x1 := r2 * q * x2
  let u := utility x1 alpha x2 beta
  return (x1, x2, u)

/- Helper lemmas shared by the claim theorems. -/

theorem find_optimal_x2_def (p1 p2 alpha beta m : ℝ) :
    (find_optimal p1 p2 alpha beta m).2.1 = m / ((alpha / beta) * p2 + p2) := rfl

theorem find_optimal_x1_def (p1 p2 alpha beta m : ℝ) :
    (find_optimal p1 p2 alpha beta m).1 =
      (alpha / beta) * (p2 / p1) * (m / ((alpha / beta) * p2 + p2)) := rfl

theorem find_optimal_u_def (p1 p2 alpha beta m : ℝ) :
    (find_optimal p1 p2 alpha beta m).2.2 =
      utility (find_optimal p1 p2 alpha beta m).1 alpha
        (find_optimal p1 p2 alpha beta m).2.1 beta := rfl

theorem denom_pos (p2 alpha beta : ℝ) (ha : 0 < alpha) (hb : 0 < beta)
    (hp2 : 0 < p2) : 0 < (alpha / beta) * p2 + p2 := by positivity

theorem find_optimal_x2_pos (p1 p2 alpha beta m : ℝ) (ha : 0 < alpha)
    (hb : 0 < beta) (hp2 : 0 < p2) (hm : 0 < m) :
    0 < (find_optimal p1 p2 alpha beta m).2.1 := by
  rw [find_optimal_x2_def]
  exact div_pos hm (denom_pos p2 alpha beta ha hb hp2)

theorem find_optimal_x1_pos (p1 p2 alpha beta m : ℝ) (ha : 0 < alpha)
    (hb : 0 < beta) (hp1 : 0 < p1) (hp2 : 0 < p2) (hm : 0 < m) :
    0 < (find_optimal p1 p2 alpha beta m).1 := by
  rw [find_optimal_x1_def]
  have hd := denom_pos p2 alpha beta ha hb hp2
  positivity

theorem budget_aux (p1 p2 alpha beta m : ℝ) (ha : 0 < alpha) (hb : 0 < beta)
    (hp1 : 0 < p1) (hp2 : 0 < p2) :
    (find_optimal p1 p2 alpha beta m).1 * p1 +
      (find_optimal p1 p2 alpha beta m).2.1 * p2 = m := by
  rw [find_optimal_x1_def, find_optimal_x2_def]
  have hd : (alpha / beta) * p2 + p2 ≠ 0 :=
    (denom_pos p2 alpha beta ha hb hp2).ne'
  field_simp
  ring

theorem find_optimal_x1_eq_ratio_x2 (p1 p2 alpha beta m : ℝ) :
    (find_optimal p1 p2 alpha beta m).1 =
      (alpha / beta) * (p2 / p1) * (find_optimal p1 p2 alpha beta m).2.1 := rfl

theorem ratio_aux (p1 p2 alpha beta m : ℝ) (ha : 0 < alpha) (hb : 0 < beta)
    (hp2 : 0 < p2) (hm : 0 < m) :
    (find_optimal p1 p2 alpha beta m).1 / (find_optimal p1 p2 alpha beta m).2.1 =
      (alpha / beta) * (p2 / p1) := by
  have hx2 := (find_optimal_x2_pos p1 p2 alpha beta m ha hb hp2 hm).ne'
  rw [find_optimal_x1_eq_ratio_x2, mul_div_assoc, div_self hx2, mul_one]

/-- C1: for positive inputs, `find_optimal` computes exactly the closed form
`x2 = m / ((alpha/beta) * p2 + p2)`, then `x1 = (alpha/beta) * (p2/p1) * x2`,
and returns `u = utility x1 alpha x2 beta = x1 ^ alpha * x2 ^ beta`. -/
theorem find_optimal_closed_form (p1 p2 alpha beta m : ℝ) (ha : 0 < alpha)
    (hb : 0 < beta) (hp1 : 0 < p1) (hp2 : 0 < p2) (hm : 0 < m) :
    (find_optimal p1 p2 alpha beta m).2.1 = m / ((alpha / beta) * p2 + p2) ∧
    (find_optimal p1 p2 alpha beta m).1 =
      (alpha / beta) * (p2 / p1) * (find_optimal p1 p2 alpha beta m).2.1 ∧
    (find_optimal p1 p2 alpha beta m).2.2 =
      utility (find_optimal p1 p2 alpha beta m).1 alpha
        (find_optimal p1 p2 alpha beta m).2.1 beta ∧
    utility (find_optimal p1 p2 alpha beta m).1 alpha
        (find_optimal p1 p2 alpha beta m).2.1 beta =
      (find_optimal p1 p2 alpha beta m).1 ^ alpha *
        (find_optimal p1 p2 alpha beta m).2.1 ^ beta :=
  ⟨rfl, rfl, rfl, rfl⟩

/-- Witness for C1 at `p1 = p2 = alpha = beta = 1`, `m = 2`. -/
theorem find_optimal_closed_form_witness :
    (find_optimal 1 1 1 1 2).2.1 = 2 / ((1 / 1) * 1 + 1) ∧
    (find_optimal 1 1 1 1 2).1 = (1 / 1) * (1 / 1) * (find_optimal 1 1 1 1 2).2.1 ∧
    (find_optimal 1 1 1 1 2).2.2 =
      utility (find_optimal 1 1 1 1 2).1 1 (find_optimal 1 1 1 1 2).2.1 1 ∧
    utility (find_optimal 1 1 1 1 2).1 1 (find_optimal 1 1 1 1 2).2.1 1 =
      (find_optimal 1 1 1 1 2).1 ^ (1:ℝ) * (find_optimal 1 1 1 1 2).2.1 ^ (1:ℝ) :=
  find_optimal_closed_form 1 1 1 1 2 (by norm_num) (by norm_num) (by norm_num)
    (by norm_num) (by norm_num)

/-- C2: for positive inputs, the bundle returned by `find_optimal` exhausts
the budget: `x1 * p1 + x2 * p2 = m` exactly in real arithmetic. -/
theorem find_optimal_budget_exhaustion (p1 p2 alpha beta m : ℝ) (ha : 0 < alpha)
    (hb : 0 < beta) (hp1 : 0 < p1) (hp2 : 0 < p2) (hm : 0 < m) :
    (find_optimal p1 p2 alpha beta m).1 * p1 +
      (find_optimal p1 p2 alpha beta m).2.1 * p2 = m :=
  budget_aux p1 p2 alpha beta m ha hb hp1 hp2

/-- Witness for C2 at `p1 = p2 = alpha = beta = 1`, `m = 2`. -/
theorem find_optimal_budget_exhaustion_witness :
    (find_optimal 1 1 1 1 2).1 * 1 + (find_optimal 1 1 1 1 2).2.1 * 1 = 2 :=
  find_optimal_budget_exhaustion 1 1 1 1 2 (by norm_num) (by norm_num)
    (by norm_num) (by norm_num) (by norm_num)

/-- C3 counterexample: `find_optimal` does not reject non-positive inputs.
With `alpha = beta = p1 = p2 = 1` and the negative income `m = -10`, the
code (with Python's division errors made explicit) raises nothing and
returns the ordinary bundle `(-5, -5, 25)`. -/
theorem find_optimalE_no_error_on_negative_income :
    find_optimalE 1 1 1 1 (-10) = .ok (-5, -5, 25) := by
  have h1 : (1:ℝ) ≠ 0 := one_ne_zero
  have h2 : (1:ℝ) / 1 * 1 + 1 ≠ 0 := by norm_num
  simp only [find_optimalE, pydiv, if_neg h1, if_neg h2, utility, bind,
    Except.bind, pure, Except.pure, Except.ok.injEq]
  norm_num [Real.rpow_one]

/-- C3 amended: `find_optimal` performs no input validation.  When
`beta = 0`, the first division `alpha/beta` raises ZeroDivisionError (so no
NaN or ordinary result is produced for that case), but other zero or
negative parameters are not rejected and can yield ordinary results. -/
theorem find_optimalE_beta_zero_raises (p1 p2 alpha m : ℝ) :
    find_optimalE p1 p2 alpha 0 m = .error .zeroDivision := by
  simp [find_optimalE, pydiv, bind, Except.bind]

/-- C4: at the optimum returned by `find_optimal` on positive inputs, the
isoquant through the optimum and the budget line agree at `x1`, both equal
to `x2`: the two curves intersect at the optimal point. -/
theorem isoquant_budget_consistency (p1 p2 alpha beta m : ℝ) (ha : 0 < alpha)
    (hb : 0 < beta) (hp1 : 0 < p1) (hp2 : 0 < p2) (hm : 0 < m) :
    isoquant (find_optimal p1 p2 alpha beta m).1 alpha beta
        (find_optimal p1 p2 alpha beta m).2.2 =
      (find_optimal p1 p2 alpha beta m).2.1 ∧
    budgetconst m p1 p2 (find_optimal p1 p2 alpha beta m).1 =
      (find_optimal p1 p2 alpha beta m).2.1 := by
  have hx1 := find_optimal_x1_pos p1 p2 alpha beta m ha hb hp1 hp2 hm
  have hx2 := find_optimal_x2_pos p1 p2 alpha beta m ha hb hp2 hm
  have hx1a : (0:ℝ) < (find_optimal p1 p2 alpha beta m).1 ^ alpha :=
    Real.rpow_pos_of_pos hx1 alpha
  constructor
  · rw [find_optimal_u_def, utility, isoquant, mul_comm, mul_div_assoc,
      div_self hx1a.ne', mul_one, ← Real.rpow_mul hx2.le,
      mul_one_div_cancel hb.ne', Real.rpow_one]
  · rw [budgetconst, find_optimal_x1_def, find_optimal_x2_def]
    have hd : (alpha / beta) * p2 + p2 ≠ 0 :=
      (denom_pos p2 alpha beta ha hb hp2).ne'
    field_simp
    ring

/-- Witness for C4 at `p1 = p2 = alpha = beta = 1`, `m = 2`. -/
theorem isoquant_budget_consistency_witness :
    isoquant (find_optimal 1 1 1 1 2).1 1 1 (find_optimal 1 1 1 1 2).2.2 =
      (find_optimal 1 1 1 1 2).2.1 ∧
    budgetconst 2 1 1 (find_optimal 1 1 1 1 2).1 = (find_optimal 1 1 1 1 2).2.1 :=
  isoquant_budget_consistency 1 1 1 1 2 (by norm_num) (by norm_num)
    (by norm_num) (by norm_num) (by norm_num)

/-- C5: on the input `alpha = beta = 0.5`, `p1 = p2 = 1`, `m = 10`, the
function `find_optimal` returns `x1 = 5`, `x2 = 5`, `u = 5`. -/
theorem find_optimal_boundary_example :
    find_optimal 1 1 (1/2) (1/2) 10 = (5, 5, 5) := by
  simp only [find_optimal, utility, Prod.mk.injEq]
  norm_num
  rw [← Real.rpow_add (by norm_num : (0:ℝ) < 5)]
  norm_num

/-- C10: the income parameter `m` of `find_optimal` defaults to `1`: the
four-argument call is exactly the five-argument call with `m = 1`. -/
theorem find_optimal_default_income (p1 p2 alpha beta : ℝ) :
    find_optimal p1 p2 alpha beta = find_optimal p1 p2 alpha beta 1 := rfl

/-- C6: for positive inputs and `k > 0`, the proportion `x1 / x2` of the
optimal bundle is invariant under scaling both prices by `k`. -/
theorem find_optimal_ratio_scaling (p1 p2 alpha beta m k : ℝ) (ha : 0 < alpha)
    (hb : 0 < beta) (hp1 : 0 < p1) (hp2 : 0 < p2) (hm : 0 < m) (hk : 0 < k) :
    (find_optimal (k * p1) (k * p2) alpha beta m).1 /
        (find_optimal (k * p1) (k * p2) alpha beta m).2.1 =
      (find_optimal p1 p2 alpha beta m).1 /
        (find_optimal p1 p2 alpha beta m).2.1 := by
  rw [ratio_aux (k * p1) (k * p2) alpha beta m ha hb (mul_pos hk hp2) hm,
    ratio_aux p1 p2 alpha beta m ha hb hp2 hm,
    mul_div_mul_left p2 p1 hk.ne']

/-- Witness for C6 at `p1 = p2 = alpha = beta = 1`, `m = 2`, `k = 3`. -/
theorem find_optimal_ratio_scaling_witness :
    (find_optimal (3 * 1) (3 * 1) 1 1 2).1 /
        (find_optimal (3 * 1) (3 * 1) 1 1 2).2.1 =
      (find_optimal 1 1 1 1 2).1 / (find_optimal 1 1 1 1 2).2.1 :=
  find_optimal_ratio_scaling 1 1 1 1 2 3 (by norm_num) (by norm_num)
    (by norm_num) (by norm_num) (by norm_num) (by norm_num)

/-- C7: for `x1 > 0`, `beta ≠ 0` and `u > 0`, the value
`x2 = isoquant x1 alpha beta u` satisfies `x1 ^ alpha * x2 ^ beta = u`,
equivalently `utility x1 alpha x2 beta = u`. -/
theorem isoquant_utility_roundtrip (x1 alpha beta u : ℝ) (hx1 : 0 < x1)
    (hb : beta ≠ 0) (hu : 0 < u) :
    utility x1 alpha (isoquant x1 alpha beta u) beta = u ∧
    x1 ^ alpha * (isoquant x1 alpha beta u) ^ beta = u := by
  have hx1a : (0:ℝ) < x1 ^ alpha := Real.rpow_pos_of_pos hx1 alpha
  have hbase : (0:ℝ) < u / x1 ^ alpha := div_pos hu hx1a
  have key : x1 ^ alpha * (isoquant x1 alpha beta u) ^ beta = u := by
    rw [isoquant, ← Real.rpow_mul hbase.le, one_div_mul_cancel hb,
      Real.rpow_one, mul_comm, div_mul_cancel₀ u hx1a.ne']
  exact ⟨key, key⟩

/-- Witness for C7 at `x1 = 1`, `alpha = 1`, `beta = 1`, `u = 2`. -/
theorem isoquant_utility_roundtrip_witness :
    utility 1 1 (isoquant 1 1 1 2) 1 = 2 ∧
    (1:ℝ) ^ (1:ℝ) * (isoquant 1 1 1 2) ^ (1:ℝ) = 2 :=
  isoquant_utility_roundtrip 1 1 1 2 (by norm_num) (by norm_num) (by norm_num)

/-- C8: for positive inputs, the quantities `x1` and `x2` returned by
`find_optimal` are strictly positive (hence non-negative). -/
theorem find_optimal_quantities_pos (p1 p2 alpha beta m : ℝ) (ha : 0 < alpha)
    (hb : 0 < beta) (hp1 : 0 < p1) (hp2 : 0 < p2) (hm : 0 < m) :
    0 < (find_optimal p1 p2 alpha beta m).1 ∧
    0 < (find_optimal p1 p2 alpha beta m).2.1 :=
  ⟨find_optimal_x1_pos p1 p2 alpha beta m ha hb hp1 hp2 hm,
   find_optimal_x2_pos p1 p2 alpha beta m ha hb hp2 hm⟩

/-- Witness for C8 at `p1 = p2 = alpha = beta = 1`, `m = 2`. -/
theorem find_optimal_quantities_pos_witness :
    0 < (find_optimal 1 1 1 1 2).1 ∧ 0 < (find_optimal 1 1 1 1 2).2.1 :=
  find_optimal_quantities_pos 1 1 1 1 2 (by norm_num) (by norm_num)
    (by norm_num) (by norm_num) (by norm_num)

/-- C9: `find_optimal` is deterministic: two invocations with identical
inputs return identical outputs.  Side-effect-freedom holds by construction
of the embedding: the source function reads and writes no state outside its
arguments and return value, which is what lets it embed as a pure function. -/
theorem find_optimal_deterministic (p1 p2 alpha beta m q1 q2 a b n : ℝ)
    (h1 : p1 = q1) (h2 : p2 = q2) (h3 : alpha = a) (h4 : beta = b)
    (h5 : m = n) :
    find_optimal p1 p2 alpha beta m = find_optimal q1 q2 a b n := by
  rw [h1, h2, h3, h4, h5]

/-- Witness for C9 at `p1 = p2 = alpha = beta = 1`, `m = 2`. -/
theorem find_optimal_deterministic_witness :
    find_optimal 1 1 1 1 2 = find_optimal 1 1 1 1 2 :=
  find_optimal_deterministic 1 1 1 1 2 1 1 1 1 2 rfl rfl rfl rfl rfl
